import Mathlib

/-!
Shallow embedding of the Class Sync editor extension (src/extension.ts).

Shell execution, UI dialogs and workspace state are modelled explicitly:
each command handler is a function from its environment (the open
workspace folder, the behaviour of the process-exec primitive, the
answers given to dialogs) to the ordered list of observable events it
produces: shell commands executed, notifications shown, workspace-state
updates, window reloads.
-/

/-- Error object produced by the process-exec primitive on a nonzero
exit status: it carries the exit code, the captured stderr and a
message (the fields of a Node ExecException). -/
structure ExecError where
  code : Int
  stderr : String
  message : String
  deriving DecidableEq

/-- Outcome of running one shell command through the process-exec
primitive: either a zero exit status with the captured stdout, or a
failure carrying the error object. -/
inductive ExecResult where
  | success (stdout : String)
  | failure (err : ExecError)
  deriving DecidableEq

/-- Reason a runCommand promise rejects: either the precondition
message string (no workspace folder open) or the raw error object
forwarded from the process-exec primitive. -/
inductive RunError where
  | noWorkspace (msg : String)
  | execFailed (err : ExecError)
  deriving DecidableEq

/-- The text interpolated into an error notification, mirroring the
JavaScript expression `error.message || error`: an error object
contributes its message field, a plain string rejection contributes
itself. -/
def RunError.text : RunError → String
  | .noWorkspace m => m
  | .execFailed e => e.message

/-- The JavaScript String.prototype.trim used on the stdout of the
branch and status queries: strips leading and trailing whitespace. -/
def jsTrim (s : String) : String :=
  ⟨((s.data.dropWhile Char.isWhitespace).reverse.dropWhile Char.isWhitespace).reverse⟩

/-- Environment a handler runs in: the first workspace folder (if any)
and the behaviour of the process-exec primitive on each command
string. -/
structure Env where
  workspaceFolder : Option String
  shell : String → ExecResult

/-- Observable events, in program order: a shell command handed to the
process-exec primitive, an information notification, an error
notification, a workspace-state update, a window reload. -/
inductive Event where
  | execCmd (cmd : String)
  | info (msg : String)
  | error (msg : String)
  | stateUpdate (key : String) (value : String)
  | reloadWindow
  deriving DecidableEq

/-- runCommand (extension.ts lines 18-39): rejects immediately when no
workspace folder is open, otherwise executes the command in the
workspace root and resolves with the captured stdout on success or
rejects with the raw error object on failure.  Returns the events
produced (the executed command, if any) together with the promise
outcome.  The progress title is UI-only. -/
def runCommand (env : Env) (command : String) (progressTitle : String) :
    List Event × Except RunError String :=
  match env.workspaceFolder with
  | none => ([], .error (.noWorkspace "Please open a project folder first."))
  | some _ =>
    match env.shell command with
    | .success stdout => ([.execCmd command], .ok stdout)
    | .failure e => ([.execCmd command], .error (.execFailed e))

/-- professorSetup handler (class-sync extension source, lines
167-214): fixed user name and email, asks for the repository name
(empty or cancelled input returns immediately), then runs the linear
git sequence; the failure of the remote-removal step is swallowed, all
other failures abort with an error notification. -/
def professorSetup (env : Env) (repoNameInput : Option String) : List Event :=
  match repoNameInput with
  | none => []
  | some repoName =>
    if repoName = "" then []
    else
      let repoUrl := "https://github.com/afmiguel/" ++ repoName ++ ".git"
      match runCommand env "git config --global user.name \"Afonso Miguel\"" "Configuring user name..." with
      | (t1, .error e) => t1 ++ [.error ("An error occurred: " ++ e.text)]
      | (t1, .ok _) =>
        match runCommand env "git config --global user.email \"afonso.miguel@pucpr.br\"" "Configuring email..." with
        | (t2, .error e) => t1 ++ t2 ++ [.error ("An error occurred: " ++ e.text)]
        | (t2, .ok _) =>
          let t2i := t1 ++ t2 ++ [.info "Git configured globally for: Afonso Miguel"]
          match runCommand env "git init" "Initializing local repository..." with
          | (t3, .error e) => t2i ++ t3 ++ [.error ("An error occurred: " ++ e.text)]
          | (t3, .ok _) =>
            let t4 := (runCommand env "git remote remove origin" "Cleaning up old remote configurations...").1
            match runCommand env ("git remote add origin " ++ repoUrl) "Connecting to the remote repository..." with
            | (t5, .error e) => t2i ++ t3 ++ t4 ++ t5 ++ [.error ("An error occurred: " ++ e.text)]
            | (t5, .ok _) =>
              match runCommand env "git add ." "Adding files..." with
              | (t6, .error e) => t2i ++ t3 ++ t4 ++ t5 ++ t6 ++ [.error ("An error occurred: " ++ e.text)]
              | (t6, .ok _) =>
                match runCommand env "git commit --allow-empty -m \"Initial commit from Class Sync\"" "Making initial commit..." with
                | (t7, .error e) => t2i ++ t3 ++ t4 ++ t5 ++ t6 ++ t7 ++ [.error ("An error occurred: " ++ e.text)]
                | (t7, .ok _) =>
                  match runCommand env "git branch --show-current" "Checking current branch..." with
                  | (t8, .error e) => t2i ++ t3 ++ t4 ++ t5 ++ t6 ++ t7 ++ t8 ++ [.error ("An error occurred: " ++ e.text)]
                  | (t8, .ok branchOut) =>
                    let branchName := jsTrim branchOut
                    match runCommand env ("git push -u origin " ++ branchName) "Pushing initial project..." with
                    | (t9, .error e) => t2i ++ t3 ++ t4 ++ t5 ++ t6 ++ t7 ++ t8 ++ t9 ++ [.error ("An error occurred: " ++ e.text)]
                    | (t9, .ok _) =>
                      t2i ++ t3 ++ t4 ++ t5 ++ t6 ++ t7 ++ t8 ++ t9 ++
                        [.info "Repository configured and pushed successfully!"]

/-- professorSync handler (class-sync extension source, lines 220-241):
checks the porcelain status first; on empty (trimmed) output it reports
that there is nothing to send and stops, otherwise it stages, commits
with the fixed message and pushes. -/
def professorSync (env : Env) : List Event :=
  match runCommand env "git status --porcelain" "Checking for changes..." with
  | (t1, .error e) => t1 ++ [.error ("Failed to push update: " ++ e.text)]
  | (t1, .ok status) =>
    if jsTrim status = "" then
      t1 ++ [.info "No new changes to send."]
    else
      match runCommand env "git add ." "Adding changes..." with
      | (t2, .error e) => t1 ++ t2 ++ [.error ("Failed to push update: " ++ e.text)]
      | (t2, .ok _) =>
        match runCommand env "git commit -m \"Update from professor\"" "Committing changes..." with
        | (t3, .error e) => t1 ++ t2 ++ t3 ++ [.error ("Failed to push update: " ++ e.text)]
        | (t3, .ok _) =>
          match runCommand env "git push" "Pushing updates..." with
          | (t4, .error e) => t1 ++ t2 ++ t3 ++ t4 ++ [.error ("Failed to push update: " ++ e.text)]
          | (t4, .ok _) => t1 ++ t2 ++ t3 ++ t4 ++ [.info "Update pushed successfully!"]

/-- studentSetup handler (extension.ts lines 99-119): asks for the
repository name (empty or cancelled input returns immediately), builds
the remote URL from the fixed template, clones, records the URL in
workspace state, notifies and reloads the window; a clone failure
surfaces an error notification. -/
def studentSetup (env : Env) (repoNameInput : Option String) : List Event :=
  match repoNameInput with
  | none => []
  | some repoName =>
    if repoName = "" then []
    else
      let repoUrl := "https://github.com/afmiguel/" ++ repoName ++ ".git"
      match runCommand env ("git clone " ++ repoUrl ++ " .") "Cloning the professor\x27s project..." with
      | (t1, .error e) => t1 ++ [.error ("Failed to clone repository: " ++ e.text)]
      | (t1, .ok _) =>
        t1 ++ [.stateUpdate "repoUrl" repoUrl,
               .info "Professor\x27s project cloned successfully! The window will now reload.",
               .reloadWindow]

/-- studentResync handler (extension.ts lines 124-144): shows the modal
warning; only the exact confirmation choice triggers the fetch, branch
query, hard reset and clean sequence; any other dialog outcome does
nothing at all. -/
def studentResync (env : Env) (confirmation : Option String) : List Event :=
  if confirmation = some "Yes, reset my work" then
    match runCommand env "git fetch origin" "Fetching professor\x27s version..." with
    | (t1, .error e) => t1 ++ [.error ("Failed to sync: " ++ e.text)]
    | (t1, .ok _) =>
      match runCommand env "git branch --show-current" "Checking current branch..." with
      | (t2, .error e) => t1 ++ t2 ++ [.error ("Failed to sync: " ++ e.text)]
      | (t2, .ok branchOut) =>
        let branchName := jsTrim branchOut
        match runCommand env ("git reset --hard origin/" ++ branchName) "Resetting to professor\x27s version..." with
        | (t3, .error e) => t1 ++ t2 ++ t3 ++ [.error ("Failed to sync: " ++ e.text)]
        | (t3, .ok _) =>
          match runCommand env "git clean -fd" "Cleaning untracked files..." with
          | (t4, .error e) => t1 ++ t2 ++ t3 ++ t4 ++ [.error ("Failed to sync: " ++ e.text)]
          | (t4, .ok _) => t1 ++ t2 ++ t3 ++ t4 ++ [.info "Project synced successfully!"]
  else []

/-- The shell commands recorded in a trace, in order. -/
def execCmds (t : List Event) : List String :=
  t.filterMap fun e =>
    match e with
    | .execCmd c => some c
    | _ => none

/-- Whether a trace contains an error notification. -/
def hasError (t : List Event) : Bool :=
  t.any fun e =>
    match e with
    | .error _ => true
    | _ => false

/-- Whether a trace contains a workspace-state update. -/
def hasUpdate (t : List Event) : Bool :=
  t.any fun e =>
    match e with
    | .stateUpdate _ _ => true
    | _ => false

/-- An error notification, when present, is the final event of the
trace: nothing runs after a surfaced failure. -/
def errorStops : List Event → Bool
  | [] => true
  | .error _ :: rest => rest.isEmpty
  | _ :: rest => errorStops rest

/-- Every executed command whose shell execution failed - apart from
the listed swallowed commands - leads to an error notification in the
trace. -/
def failureSurfaced (env : Env) (t : List Event) (swallowed : List String) : Prop :=
  ∀ cmd, cmd ∈ execCmds t → cmd ∉ swallowed →
    (∃ e, env.shell cmd = .failure e) → hasError t = true

/-- A rejecting step stops the sequence: after the execution event of
any command whose shell execution failed - apart from the listed
swallowed commands - no further command is ever executed in the rest
of the trace. -/
def noExecAfterFailure (env : Env) (swallowed : List String) : List Event → Prop
  | [] => True
  | .execCmd c :: rest =>
    ((c ∉ swallowed ∧ ∃ e, env.shell c = .failure e) → execCmds rest = []) ∧
      noExecAfterFailure env swallowed rest
  | _ :: rest => noExecAfterFailure env swallowed rest

/-- The stdout of the branch query, trimmed, as the handlers compute
it; empty when the query fails (in which case it is never used). -/
def branchOf (env : Env) : String :=
  match env.shell "git branch --show-current" with
  | .success out => jsTrim out
  | .failure _ => ""

/-- The nominal command sequence of the student resync workflow. -/
def resyncCmds (env : Env) : List String :=
  ["git fetch origin",
   "git branch --show-current",
   "git reset --hard origin/" ++ branchOf env,
   "git clean -fd"]

/-- The nominal command sequence of the professor sync workflow. -/
def syncCmds : List String :=
  ["git status --porcelain",
   "git add .",
   "git commit -m \"Update from professor\"",
   "git push"]

/-- The nominal command sequence of the professor setup workflow for a
given repository name. -/
def setupCmds (env : Env) (repoName : String) : List String :=
  ["git config --global user.name \"Afonso Miguel\"",
   "git config --global user.email \"afonso.miguel@pucpr.br\"",
   "git init",
   "git remote remove origin",
   "git remote add origin " ++ ("https://github.com/afmiguel/" ++ repoName ++ ".git"),
   "git add .",
   "git commit --allow-empty -m \"Initial commit from Class Sync\"",
   "git branch --show-current",
   "git push -u origin " ++ branchOf env]

/-- The nominal command sequence of the student setup workflow. -/
def cloneCmds (repoName : String) : List String :=
  ["git clone " ++ ("https://github.com/afmiguel/" ++ repoName ++ ".git") ++ " ."]

/-- Modelled from the spec: the fixed remote-repository naming
convention, `https://github.com/<fixed-account>/<user-supplied-name>.git`
with the fixed account afmiguel. -/
def specRepoUrl (repoName : String) : String :=
  "https://github.com/afmiguel/" ++ repoName ++ ".git"

/-- A concrete environment: workspace open, every command succeeds with
empty stdout except the branch query (stdout with a newline) and the
remote removal, which fails as it does when no origin remote exists. -/
def envW1 : Env :=
  { workspaceFolder := some "/home/student/proj"
    shell := fun c =>
      if c = "git remote remove origin" then
        .failure ⟨2, "error: No such remote: origin", "Command failed: git remote remove origin"⟩
      else if c = "git branch --show-current" then .success "main\n"
      else .success "" }

/-- A concrete environment with no workspace folder open. -/
def envNone : Env :=
  { workspaceFolder := none
    shell := fun _ => .success "" }

/-- A concrete environment where the working tree is dirty: the
porcelain status reports one modified file and everything succeeds. -/
def envDirty : Env :=
  { workspaceFolder := some "/home/prof/proj"
    shell := fun c =>
      if c = "git status --porcelain" then .success " M notes.md\n"
      else if c = "git branch --show-current" then .success "main\n"
      else .success "" }

/-- A concrete environment where the clone command fails. -/
def envCloneFail : Env :=
  { workspaceFolder := some "/home/student/proj"
    shell := fun c =>
      if c = "git clone https://github.com/afmiguel/aula1.git ." then
        .failure ⟨128, "fatal: repository not found", "Command failed: git clone"⟩
      else .success "" }

theorem runCommand_none (env : Env) (cmd title : String)
    (hw : env.workspaceFolder = none) :
    runCommand env cmd title = ([], .error (.noWorkspace "Please open a project folder first.")) := by
  simp [runCommand, hw]

theorem runCommand_ok (env : Env) (cmd title w out : String)
    (hw : env.workspaceFolder = some w) (hs : env.shell cmd = .success out) :
    runCommand env cmd title = ([.execCmd cmd], .ok out) := by
  simp [runCommand, hw, hs]

theorem runCommand_err (env : Env) (cmd title w : String) (e : ExecError)
    (hw : env.workspaceFolder = some w) (hs : env.shell cmd = .failure e) :
    runCommand env cmd title = ([.execCmd cmd], .error (.execFailed e)) := by
  simp [runCommand, hw, hs]

theorem studentResync_not_confirmed (env : Env) (c : Option String)
    (hc : c ≠ some "Yes, reset my work") : studentResync env c = [] := by
  simp [studentResync, hc]

theorem studentResync_props (env : Env) (c : Option String) :
    (∃ n, execCmds (studentResync env c) = (resyncCmds env).take n) ∧
    errorStops (studentResync env c) = true ∧
    failureSurfaced env (studentResync env c) [] := by
  by_cases hc : c = some "Yes, reset my work"
  · subst hc
    cases hw : env.workspaceFolder with
    | none =>
      simp only [studentResync, if_pos rfl, runCommand_none env _ _ hw]
      exact ⟨⟨0, by simp [execCmds]⟩, by simp [errorStops],
        by simp [failureSurfaced, execCmds, hasError]⟩
    | some w =>
      cases h1 : env.shell "git fetch origin" with
      | failure e1 =>
        simp only [studentResync, if_pos rfl, runCommand_err env _ _ w e1 hw h1]
        refine ⟨⟨1, by simp [execCmds, resyncCmds]⟩, by simp [errorStops],
          by simp [failureSurfaced, execCmds, hasError]⟩
      | success o1 =>
        cases h2 : env.shell "git branch --show-current" with
        | failure e2 =>
          simp only [studentResync, if_pos rfl, runCommand_ok env _ _ w o1 hw h1,
            runCommand_err env _ _ w e2 hw h2]
          refine ⟨⟨2, by simp [execCmds, resyncCmds]⟩, by simp [errorStops],
            by simp [failureSurfaced, execCmds, hasError]⟩
        | success o2 =>
          have hb : branchOf env = jsTrim o2 := by simp [branchOf, h2]
          cases h3 : env.shell ("git reset --hard origin/" ++ jsTrim o2) with
          | failure e3 =>
            simp only [studentResync, if_pos rfl, runCommand_ok env _ _ w o1 hw h1,
              runCommand_ok env _ _ w o2 hw h2, runCommand_err env _ _ w e3 hw h3]
            refine ⟨⟨3, by simp [execCmds, resyncCmds, hb]⟩, by simp [errorStops],
              by simp [failureSurfaced, execCmds, hasError]⟩
          | success o3 =>
            cases h4 : env.shell "git clean -fd" with
            | failure e4 =>
              simp only [studentResync, if_pos rfl, runCommand_ok env _ _ w o1 hw h1,
                runCommand_ok env _ _ w o2 hw h2, runCommand_ok env _ _ w o3 hw h3,
                runCommand_err env _ _ w e4 hw h4]
              refine ⟨⟨4, by simp [execCmds, resyncCmds, hb]⟩, by simp [errorStops],
                by simp [failureSurfaced, execCmds, hasError]⟩
            | success o4 =>
              simp only [studentResync, if_pos rfl, runCommand_ok env _ _ w o1 hw h1,
                runCommand_ok env _ _ w o2 hw h2, runCommand_ok env _ _ w o3 hw h3,
                runCommand_ok env _ _ w o4 hw h4]
              refine ⟨⟨4, by simp [execCmds, resyncCmds, hb]⟩, by simp [errorStops], ?_⟩
              intro cmd hmem hsw he
              simp [execCmds] at hmem
              rcases he with ⟨e, he⟩
              rcases hmem with h | h | h | h <;> subst h <;>
                simp [h1, h2, h3, h4] at he
  · rw [studentResync_not_confirmed env c hc]
    exact ⟨⟨0, by simp [execCmds]⟩, by simp [errorStops],
      by simp [failureSurfaced, execCmds, hasError]⟩

theorem professorSync_props (env : Env) :
    (∃ n, execCmds (professorSync env) = syncCmds.take n) ∧
    errorStops (professorSync env) = true ∧
    failureSurfaced env (professorSync env) [] := by
  cases hw : env.workspaceFolder with
  | none =>
    simp only [professorSync, runCommand_none env _ _ hw]
    exact ⟨⟨0, by simp [execCmds]⟩, by simp [errorStops],
      by simp [failureSurfaced, execCmds, hasError]⟩
  | some w =>
    cases h1 : env.shell "git status --porcelain" with
    | failure e1 =>
      simp only [professorSync, runCommand_err env _ _ w e1 hw h1]
      refine ⟨⟨1, by simp [execCmds, syncCmds]⟩, by simp [errorStops],
        by simp [failureSurfaced, execCmds, hasError]⟩
    | success o1 =>
      by_cases ht : jsTrim o1 = ""
      · simp only [professorSync, runCommand_ok env _ _ w o1 hw h1, if_pos ht]
        refine ⟨⟨1, by simp [execCmds, syncCmds]⟩, by simp [errorStops], ?_⟩
        intro cmd hmem hsw he
        simp [execCmds] at hmem
        rcases he with ⟨e, he⟩
        subst hmem
        simp [h1] at he
      · simp only [professorSync, runCommand_ok env _ _ w o1 hw h1, if_neg ht]
        cases h2 : env.shell "git add ." with
        | failure e2 =>
          simp only [runCommand_err env _ _ w e2 hw h2]
          refine ⟨⟨2, by simp [execCmds, syncCmds]⟩, by simp [errorStops],
            by simp [failureSurfaced, execCmds, hasError]⟩
        | success o2 =>
          cases h3 : env.shell "git commit -m \"Update from professor\"" with
          | failure e3 =>
            simp only [runCommand_ok env _ _ w o2 hw h2, runCommand_err env _ _ w e3 hw h3]
            refine ⟨⟨3, by simp [execCmds, syncCmds]⟩, by simp [errorStops],
              by simp [failureSurfaced, execCmds, hasError]⟩
          | success o3 =>
            cases h4 : env.shell "git push" with
            | failure e4 =>
              simp only [runCommand_ok env _ _ w o2 hw h2, runCommand_ok env _ _ w o3 hw h3,
                runCommand_err env _ _ w e4 hw h4]
              refine ⟨⟨4, by simp [execCmds, syncCmds]⟩, by simp [errorStops],
                by simp [failureSurfaced, execCmds, hasError]⟩
            | success o4 =>
              simp only [runCommand_ok env _ _ w o2 hw h2, runCommand_ok env _ _ w o3 hw h3,
                runCommand_ok env _ _ w o4 hw h4]
              refine ⟨⟨4, by simp [execCmds, syncCmds]⟩, by simp [errorStops], ?_⟩
              intro cmd hmem hsw he
              simp [execCmds] at hmem
              rcases he with ⟨e, he⟩
              rcases hmem with h | h | h | h <;> subst h <;>
                simp [h1, h2, h3, h4] at he

theorem studentSetup_props (env : Env) (rn : Option String) :
    (∃ n, execCmds (studentSetup env rn) = (cloneCmds (rn.getD "")).take n) ∧
    errorStops (studentSetup env rn) = true ∧
    failureSurfaced env (studentSetup env rn) [] := by
  cases rn with
  | none =>
    simp only [studentSetup]
    exact ⟨⟨0, by simp [execCmds]⟩, by simp [errorStops],
      by simp [failureSurfaced, execCmds, hasError]⟩
  | some name =>
    by_cases hn : name = ""
    · simp only [studentSetup, if_pos hn]
      exact ⟨⟨0, by simp [execCmds]⟩, by simp [errorStops],
        by simp [failureSurfaced, execCmds, hasError]⟩
    · cases hw : env.workspaceFolder with
      | none =>
        simp only [studentSetup, if_neg hn, runCommand_none env _ _ hw]
        exact ⟨⟨0, by simp [execCmds]⟩, by simp [errorStops],
          by simp [failureSurfaced, execCmds, hasError]⟩
      | some w =>
        cases h1 : env.shell ("git clone " ++ ("https://github.com/afmiguel/" ++ name ++ ".git") ++ " .") with
        | failure e1 =>
          simp only [studentSetup, if_neg hn, runCommand_err env _ _ w e1 hw h1]
          refine ⟨⟨1, by simp [execCmds, cloneCmds]⟩, by simp [errorStops],
            by simp [failureSurfaced, execCmds, hasError]⟩
        | success o1 =>
          simp only [studentSetup, if_neg hn, runCommand_ok env _ _ w o1 hw h1]
          refine ⟨⟨1, by simp [execCmds, cloneCmds]⟩, by simp [errorStops], ?_⟩
          intro cmd hmem hsw he
          simp [execCmds] at hmem
          rcases he with ⟨e, he⟩
          subst hmem
          simp [h1] at he

theorem professorSetup_props (env : Env) (rn : Option String) :
    (∃ n, execCmds (professorSetup env rn) = (setupCmds env (rn.getD "")).take n) ∧
    errorStops (professorSetup env rn) = true ∧
    failureSurfaced env (professorSetup env rn) ["git remote remove origin"] := by
  cases rn with
  | none =>
    simp only [professorSetup]
    exact ⟨⟨0, by simp [execCmds]⟩, by simp [errorStops],
      by simp [failureSurfaced, execCmds, hasError]⟩
  | some name =>
    by_cases hn : name = ""
    · simp only [professorSetup, if_pos hn]
      exact ⟨⟨0, by simp [execCmds]⟩, by simp [errorStops],
        by simp [failureSurfaced, execCmds, hasError]⟩
    · cases hw : env.workspaceFolder with
      | none =>
        simp only [professorSetup, if_neg hn, runCommand_none env _ _ hw]
        exact ⟨⟨0, by simp [execCmds]⟩, by simp [errorStops],
          by simp [failureSurfaced, execCmds, hasError]⟩
      | some w =>
        have hrm : (runCommand env "git remote remove origin" "Cleaning up old remote configurations...").1
            = [.execCmd "git remote remove origin"] := by
          cases hr : env.shell "git remote remove origin" <;> simp [runCommand, hw, hr]
        cases h1 : env.shell "git config --global user.name \"Afonso Miguel\"" with
        | failure e1 =>
          simp only [professorSetup, if_neg hn, runCommand_err env _ _ w e1 hw h1]
          refine ⟨⟨1, by simp [execCmds, setupCmds]⟩, by simp [errorStops],
            by simp [failureSurfaced, execCmds, hasError]⟩
        | success o1 =>
          cases h2 : env.shell "git config --global user.email \"afonso.miguel@pucpr.br\"" with
          | failure e2 =>
            simp only [professorSetup, if_neg hn, runCommand_ok env _ _ w o1 hw h1,
              runCommand_err env _ _ w e2 hw h2]
            refine ⟨⟨2, by simp [execCmds, setupCmds]⟩, by simp [errorStops],
              by simp [failureSurfaced, execCmds, hasError]⟩
          | success o2 =>
            cases h3 : env.shell "git init" with
            | failure e3 =>
              simp only [professorSetup, if_neg hn, runCommand_ok env _ _ w o1 hw h1,
                runCommand_ok env _ _ w o2 hw h2, runCommand_err env _ _ w e3 hw h3]
              refine ⟨⟨3, by simp [execCmds, setupCmds]⟩, by simp [errorStops],
                by simp [failureSurfaced, execCmds, hasError]⟩
            | success o3 =>
              cases h5 : env.shell ("git remote add origin " ++ ("https://github.com/afmiguel/" ++ name ++ ".git")) with
              | failure e5 =>
                simp only [professorSetup, if_neg hn, runCommand_ok env _ _ w o1 hw h1,
                  runCommand_ok env _ _ w o2 hw h2, runCommand_ok env _ _ w o3 hw h3, hrm,
                  runCommand_err env _ _ w e5 hw h5]
                refine ⟨⟨5, by simp [execCmds, setupCmds]⟩, by simp [errorStops],
                  by simp [failureSurfaced, execCmds, hasError]⟩
              | success o5 =>
                cases h6 : env.shell "git add ." with
                | failure e6 =>
                  simp only [professorSetup, if_neg hn, runCommand_ok env _ _ w o1 hw h1,
                    runCommand_ok env _ _ w o2 hw h2, runCommand_ok env _ _ w o3 hw h3, hrm,
                    runCommand_ok env _ _ w o5 hw h5, runCommand_err env _ _ w e6 hw h6]
                  refine ⟨⟨6, by simp [execCmds, setupCmds]⟩, by simp [errorStops],
                    by simp [failureSurfaced, execCmds, hasError]⟩
                | success o6 =>
                  cases h7 : env.shell "git commit --allow-empty -m \"Initial commit from Class Sync\"" with
                  | failure e7 =>
                    simp only [professorSetup, if_neg hn, runCommand_ok env _ _ w o1 hw h1,
                      runCommand_ok env _ _ w o2 hw h2, runCommand_ok env _ _ w o3 hw h3, hrm,
                      runCommand_ok env _ _ w o5 hw h5, runCommand_ok env _ _ w o6 hw h6,
                      runCommand_err env _ _ w e7 hw h7]
                    refine ⟨⟨7, by simp [execCmds, setupCmds]⟩, by simp [errorStops],
                      by simp [failureSurfaced, execCmds, hasError]⟩
                  | success o7 =>
                    cases h8 : env.shell "git branch --show-current" with
                    | failure e8 =>
                      simp only [professorSetup, if_neg hn, runCommand_ok env _ _ w o1 hw h1,
                        runCommand_ok env _ _ w o2 hw h2, runCommand_ok env _ _ w o3 hw h3, hrm,
                        runCommand_ok env _ _ w o5 hw h5, runCommand_ok env _ _ w o6 hw h6,
                        runCommand_ok env _ _ w o7 hw h7, runCommand_err env _ _ w e8 hw h8]
                      refine ⟨⟨8, by simp [execCmds, setupCmds]⟩, by simp [errorStops],
                        by simp [failureSurfaced, execCmds, hasError]⟩
                    | success o8 =>
                      have hb : branchOf env = jsTrim o8 := by simp [branchOf, h8]
                      cases h9 : env.shell ("git push -u origin " ++ jsTrim o8) with
                      | failure e9 =>
                        simp only [professorSetup, if_neg hn, runCommand_ok env _ _ w o1 hw h1,
                          runCommand_ok env _ _ w o2 hw h2, runCommand_ok env _ _ w o3 hw h3, hrm,
                          runCommand_ok env _ _ w o5 hw h5, runCommand_ok env _ _ w o6 hw h6,
                          runCommand_ok env _ _ w o7 hw h7, runCommand_ok env _ _ w o8 hw h8,
                          runCommand_err env _ _ w e9 hw h9]
                        refine ⟨⟨9, by simp [execCmds, setupCmds, hb]⟩, by simp [errorStops],
                          by simp [failureSurfaced, execCmds, hasError]⟩
                      | success o9 =>
                        simp only [professorSetup, if_neg hn, runCommand_ok env _ _ w o1 hw h1,
                          runCommand_ok env _ _ w o2 hw h2, runCommand_ok env _ _ w o3 hw h3, hrm,
                          runCommand_ok env _ _ w o5 hw h5, runCommand_ok env _ _ w o6 hw h6,
                          runCommand_ok env _ _ w o7 hw h7, runCommand_ok env _ _ w o8 hw h8,
                          runCommand_ok env _ _ w o9 hw h9]
                        refine ⟨⟨9, by simp [execCmds, setupCmds, hb]⟩, by simp [errorStops], ?_⟩
                        intro cmd hmem hsw he
                        simp [execCmds] at hmem
                        simp at hsw
                        rcases he with ⟨e, he⟩
                        rcases hmem with h | h | h | h | h | h | h | h | h <;> subst h <;>
                          simp [h1, h2, h3, h5, h6, h7, h8, h9] at he hsw

theorem studentResync_noExec (env : Env) (c : Option String) :
    noExecAfterFailure env [] (studentResync env c) := by
  by_cases hc : c = some "Yes, reset my work"
  · subst hc
    cases hw : env.workspaceFolder with
    | none =>
      simp only [studentResync, if_pos rfl, runCommand_none env _ _ hw]
      simp [noExecAfterFailure, execCmds]
    | some w =>
      cases h1 : env.shell "git fetch origin" with
      | failure e1 =>
        simp only [studentResync, if_pos rfl, runCommand_err env _ _ w e1 hw h1]
        simp [noExecAfterFailure, execCmds]
      | success o1 =>
        cases h2 : env.shell "git branch --show-current" with
        | failure e2 =>
          simp only [studentResync, if_pos rfl, runCommand_ok env _ _ w o1 hw h1,
            runCommand_err env _ _ w e2 hw h2]
          simp [noExecAfterFailure, execCmds, h1]
        | success o2 =>
          cases h3 : env.shell ("git reset --hard origin/" ++ jsTrim o2) with
          | failure e3 =>
            simp only [studentResync, if_pos rfl, runCommand_ok env _ _ w o1 hw h1,
              runCommand_ok env _ _ w o2 hw h2, runCommand_err env _ _ w e3 hw h3]
            simp [noExecAfterFailure, execCmds, h1, h2]
          | success o3 =>
            cases h4 : env.shell "git clean -fd" with
            | failure e4 =>
              simp only [studentResync, if_pos rfl, runCommand_ok env _ _ w o1 hw h1,
                runCommand_ok env _ _ w o2 hw h2, runCommand_ok env _ _ w o3 hw h3,
                runCommand_err env _ _ w e4 hw h4]
              simp [noExecAfterFailure, execCmds, h1, h2, h3]
            | success o4 =>
              simp only [studentResync, if_pos rfl, runCommand_ok env _ _ w o1 hw h1,
                runCommand_ok env _ _ w o2 hw h2, runCommand_ok env _ _ w o3 hw h3,
                runCommand_ok env _ _ w o4 hw h4]
              simp [noExecAfterFailure, execCmds, h1, h2, h3, h4]
  · rw [studentResync_not_confirmed env c hc]
    simp [noExecAfterFailure]

theorem professorSync_noExec (env : Env) :
    noExecAfterFailure env [] (professorSync env) := by
  cases hw : env.workspaceFolder with
  | none =>
    simp only [professorSync, runCommand_none env _ _ hw]
    simp [noExecAfterFailure, execCmds]
  | some w =>
    cases h1 : env.shell "git status --porcelain" with
    | failure e1 =>
      simp only [professorSync, runCommand_err env _ _ w e1 hw h1]
      simp [noExecAfterFailure, execCmds]
    | success o1 =>
      by_cases ht : jsTrim o1 = ""
      · simp only [professorSync, runCommand_ok env _ _ w o1 hw h1, if_pos ht]
        simp [noExecAfterFailure, execCmds, h1]
      · simp only [professorSync, runCommand_ok env _ _ w o1 hw h1, if_neg ht]
        cases h2 : env.shell "git add ." with
        | failure e2 =>
          simp only [runCommand_err env _ _ w e2 hw h2]
          simp [noExecAfterFailure, execCmds, h1]
        | success o2 =>
          cases h3 : env.shell "git commit -m \"Update from professor\"" with
          | failure e3 =>
            simp only [runCommand_ok env _ _ w o2 hw h2, runCommand_err env _ _ w e3 hw h3]
            simp [noExecAfterFailure, execCmds, h1, h2]
          | success o3 =>
            cases h4 : env.shell "git push" with
            | failure e4 =>
              simp only [runCommand_ok env _ _ w o2 hw h2, runCommand_ok env _ _ w o3 hw h3,
                runCommand_err env _ _ w e4 hw h4]
              simp [noExecAfterFailure, execCmds, h1, h2, h3]
            | success o4 =>
              simp only [runCommand_ok env _ _ w o2 hw h2, runCommand_ok env _ _ w o3 hw h3,
                runCommand_ok env _ _ w o4 hw h4]
              simp [noExecAfterFailure, execCmds, h1, h2, h3, h4]

theorem studentSetup_noExec (env : Env) (rn : Option String) :
    noExecAfterFailure env [] (studentSetup env rn) := by
  cases rn with
  | none =>
    simp only [studentSetup]
    simp [noExecAfterFailure]
  | some name =>
    by_cases hn : name = ""
    · simp only [studentSetup, if_pos hn]
      simp [noExecAfterFailure]
    · cases hw : env.workspaceFolder with
      | none =>
        simp only [studentSetup, if_neg hn, runCommand_none env _ _ hw]
        simp [noExecAfterFailure, execCmds]
      | some w =>
        cases h1 : env.shell ("git clone " ++ ("https://github.com/afmiguel/" ++ name ++ ".git") ++ " .") with
        | failure e1 =>
          simp only [studentSetup, if_neg hn, runCommand_err env _ _ w e1 hw h1]
          simp [noExecAfterFailure, execCmds]
        | success o1 =>
          simp only [studentSetup, if_neg hn, runCommand_ok env _ _ w o1 hw h1]
          simp [noExecAfterFailure, execCmds, h1]

theorem professorSetup_noExec (env : Env) (rn : Option String) :
    noExecAfterFailure env ["git remote remove origin"] (professorSetup env rn) := by
  cases rn with
  | none =>
    simp only [professorSetup]
    simp [noExecAfterFailure]
  | some name =>
    by_cases hn : name = ""
    · simp only [professorSetup, if_pos hn]
      simp [noExecAfterFailure]
    · cases hw : env.workspaceFolder with
      | none =>
        simp only [professorSetup, if_neg hn, runCommand_none env _ _ hw]
        simp [noExecAfterFailure, execCmds]
      | some w =>
        have hrm : (runCommand env "git remote remove origin" "Cleaning up old remote configurations...").1
            = [.execCmd "git remote remove origin"] := by
          cases hr : env.shell "git remote remove origin" <;> simp [runCommand, hw, hr]
        cases h1 : env.shell "git config --global user.name \"Afonso Miguel\"" with
        | failure e1 =>
          simp only [professorSetup, if_neg hn, runCommand_err env _ _ w e1 hw h1]
          simp [noExecAfterFailure, execCmds]
        | success o1 =>
          cases h2 : env.shell "git config --global user.email \"afonso.miguel@pucpr.br\"" with
          | failure e2 =>
            simp only [professorSetup, if_neg hn, runCommand_ok env _ _ w o1 hw h1,
              runCommand_err env _ _ w e2 hw h2]
            simp [noExecAfterFailure, execCmds, h1]
          | success o2 =>
            cases h3 : env.shell "git init" with
            | failure e3 =>
              simp only [professorSetup, if_neg hn, runCommand_ok env _ _ w o1 hw h1,
                runCommand_ok env _ _ w o2 hw h2, runCommand_err env _ _ w e3 hw h3]
              simp [noExecAfterFailure, execCmds, h1, h2]
            | success o3 =>
              cases h5 : env.shell ("git remote add origin " ++ ("https://github.com/afmiguel/" ++ name ++ ".git")) with
              | failure e5 =>
                simp only [professorSetup, if_neg hn, runCommand_ok env _ _ w o1 hw h1,
                  runCommand_ok env _ _ w o2 hw h2, runCommand_ok env _ _ w o3 hw h3, hrm,
                  runCommand_err env _ _ w e5 hw h5]
                simp [noExecAfterFailure, execCmds, h1, h2, h3]
              | success o5 =>
                cases h6 : env.shell "git add ." with
                | failure e6 =>
                  simp only [professorSetup, if_neg hn, runCommand_ok env _ _ w o1 hw h1,
                    runCommand_ok env _ _ w o2 hw h2, runCommand_ok env _ _ w o3 hw h3, hrm,
                    runCommand_ok env _ _ w o5 hw h5, runCommand_err env _ _ w e6 hw h6]
                  simp [noExecAfterFailure, execCmds, h1, h2, h3, h5]
                | success o6 =>
                  cases h7 : env.shell "git commit --allow-empty -m \"Initial commit from Class Sync\"" with
                  | failure e7 =>
                    simp only [professorSetup, if_neg hn, runCommand_ok env _ _ w o1 hw h1,
                      runCommand_ok env _ _ w o2 hw h2, runCommand_ok env _ _ w o3 hw h3, hrm,
                      runCommand_ok env _ _ w o5 hw h5, runCommand_ok env _ _ w o6 hw h6,
                      runCommand_err env _ _ w e7 hw h7]
                    simp [noExecAfterFailure, execCmds, h1, h2, h3, h5, h6]
                  | success o7 =>
                    cases h8 : env.shell "git branch --show-current" with
                    | failure e8 =>
                      simp only [professorSetup, if_neg hn, runCommand_ok env _ _ w o1 hw h1,
                        runCommand_ok env _ _ w o2 hw h2, runCommand_ok env _ _ w o3 hw h3, hrm,
                        runCommand_ok env _ _ w o5 hw h5, runCommand_ok env _ _ w o6 hw h6,
                        runCommand_ok env _ _ w o7 hw h7, runCommand_err env _ _ w e8 hw h8]
                      simp [noExecAfterFailure, execCmds, h1, h2, h3, h5, h6, h7]
                    | success o8 =>
                      cases h9 : env.shell ("git push -u origin " ++ jsTrim o8) with
                      | failure e9 =>
                        simp only [professorSetup, if_neg hn, runCommand_ok env _ _ w o1 hw h1,
                          runCommand_ok env _ _ w o2 hw h2, runCommand_ok env _ _ w o3 hw h3, hrm,
                          runCommand_ok env _ _ w o5 hw h5, runCommand_ok env _ _ w o6 hw h6,
                          runCommand_ok env _ _ w o7 hw h7, runCommand_ok env _ _ w o8 hw h8,
                          runCommand_err env _ _ w e9 hw h9]
                        simp [noExecAfterFailure, execCmds, h1, h2, h3, h5, h6, h7, h8]
                      | success o9 =>
                        simp only [professorSetup, if_neg hn, runCommand_ok env _ _ w o1 hw h1,
                          runCommand_ok env _ _ w o2 hw h2, runCommand_ok env _ _ w o3 hw h3, hrm,
                          runCommand_ok env _ _ w o5 hw h5, runCommand_ok env _ _ w o6 hw h6,
                          runCommand_ok env _ _ w o7 hw h7, runCommand_ok env _ _ w o8 hw h8,
                          runCommand_ok env _ _ w o9 hw h9]
                        simp [noExecAfterFailure, execCmds, h1, h2, h3, h5, h6, h7, h8, h9]


/-- C1: the student resync command executes its shell commands only
when the modal warning dialog was answered with the exact confirmation
choice - every other dialog outcome (dismissal or any other answer)
produces no events at all - and the commands executed are always an
ordered prefix of the fetch, branch query, hard reset, clean sequence,
so fetch, reset and clean happen in that order. -/
theorem studentResync_confirmation_gate (env : Env) (c : Option String) :
    (c ≠ some "Yes, reset my work" → studentResync env c = []) ∧
    (∃ n, execCmds (studentResync env c) = (resyncCmds env).take n) :=
  ⟨fun hc => studentResync_not_confirmed env c hc, (studentResync_props env c).1⟩

/-- C1 witness: dismissing the dialog (no answer) executes nothing. -/
theorem studentResync_confirmation_gate_w :
    studentResync envW1 none = [] :=
  (studentResync_confirmation_gate envW1 none).1 (by simp)

/-- C2: with a workspace folder open, runCommand resolves with exactly
the captured stdout when the command exits with status zero, and
rejects with the raw error object produced by the process-exec
primitive (carrying exit code and stderr) when it exits nonzero; in
both cases exactly that one command is executed. -/
theorem runCommand_resolve_reject (env : Env) (cmd title w : String)
    (hw : env.workspaceFolder = some w) :
    (∀ out, env.shell cmd = .success out →
      runCommand env cmd title = ([.execCmd cmd], .ok out)) ∧
    (∀ e, env.shell cmd = .failure e →
      runCommand env cmd title = ([.execCmd cmd], .error (.execFailed e))) :=
  ⟨fun out hs => runCommand_ok env cmd title w out hw hs,
   fun e hs => runCommand_err env cmd title w e hw hs⟩

/-- C2 witness: a zero-exit command resolves with its stdout and a
nonzero-exit command rejects with the error object, in envW1. -/
theorem runCommand_resolve_reject_w :
    runCommand envW1 "git init" "Initializing local repository..."
      = ([.execCmd "git init"], .ok "") ∧
    runCommand envW1 "git remote remove origin" "Cleaning up old remote configurations..."
      = ([.execCmd "git remote remove origin"],
         .error (.execFailed ⟨2, "error: No such remote: origin",
           "Command failed: git remote remove origin"⟩)) :=
  ⟨(runCommand_resolve_reject envW1 "git init" "Initializing local repository..."
      "/home/student/proj" rfl).1 "" rfl,
   (runCommand_resolve_reject envW1 "git remote remove origin"
      "Cleaning up old remote configurations..." "/home/student/proj" rfl).2 _ rfl⟩

/-- C3: when the porcelain status query returns output that trims to
the empty string, the professor sync command reports that there is
nothing to send and executes no further shell command - in particular
no add, commit or push. -/
theorem professorSync_clean_noop (env : Env) (w out : String)
    (hw : env.workspaceFolder = some w)
    (hs : env.shell "git status --porcelain" = .success out)
    (ht : jsTrim out = "") :
    professorSync env =
      [.execCmd "git status --porcelain", .info "No new changes to send."] ∧
    execCmds (professorSync env) = ["git status --porcelain"] := by
  have h : professorSync env
      = [.execCmd "git status --porcelain", .info "No new changes to send."] := by
    simp only [professorSync, runCommand_ok env _ _ w out hw hs, if_pos ht]
    simp
  exact ⟨h, by rw [h]; simp [execCmds]⟩

/-- C3 witness: in envW1 the status query returns empty output and the
sync command stops after the status query. -/
theorem professorSync_clean_noop_w :
    professorSync envW1 =
      [.execCmd "git status --porcelain", .info "No new changes to send."] :=
  (professorSync_clean_noop envW1 "/home/student/proj" "" rfl rfl rfl).1

/-- C5: when no workspace folder is open, runCommand rejects with the
message asking the user to open a project folder first and executes no
shell command at all. -/
theorem runCommand_no_workspace (env : Env) (cmd title : String)
    (hw : env.workspaceFolder = none) :
    runCommand env cmd title
      = ([], .error (.noWorkspace "Please open a project folder first.")) :=
  runCommand_none env cmd title hw

/-- C5 witness: in the environment with no workspace folder, a command
rejects with the precondition message and nothing is executed. -/
theorem runCommand_no_workspace_w :
    runCommand envNone "git status --porcelain" "Checking for changes..."
      = ([], .error (.noWorkspace "Please open a project folder first.")) :=
  runCommand_no_workspace envNone "git status --porcelain" "Checking for changes..." rfl

/-- C7: when the porcelain status output is non-empty after trimming
and the remaining commands succeed, the professor sync command runs
exactly the status query, stage-all, the commit with the fixed message
and the push, in that order, then reports success. -/
theorem professorSync_dirty_sequence (env : Env) (w out o2 o3 o4 : String)
    (hw : env.workspaceFolder = some w)
    (hs : env.shell "git status --porcelain" = .success out)
    (ht : jsTrim out ≠ "")
    (ha : env.shell "git add ." = .success o2)
    (hc : env.shell "git commit -m \"Update from professor\"" = .success o3)
    (hp : env.shell "git push" = .success o4) :
    professorSync env =
      [.execCmd "git status --porcelain", .execCmd "git add .",
       .execCmd "git commit -m \"Update from professor\"", .execCmd "git push",
       .info "Update pushed successfully!"] := by
  simp only [professorSync, runCommand_ok env _ _ w out hw hs, if_neg ht,
    runCommand_ok env _ _ w o2 hw ha, runCommand_ok env _ _ w o3 hw hc,
    runCommand_ok env _ _ w o4 hw hp]
  simp

/-- C7 witness: in the dirty-tree environment the sync command runs
status, add, commit, push in order. -/
theorem professorSync_dirty_sequence_w :
    professorSync envDirty =
      [.execCmd "git status --porcelain", .execCmd "git add .",
       .execCmd "git commit -m \"Update from professor\"", .execCmd "git push",
       .info "Update pushed successfully!"] :=
  professorSync_dirty_sequence envDirty "/home/prof/proj" " M notes.md\n" "" "" ""
    rfl rfl (by decide) rfl rfl rfl

/-- C6: in the professor setup sequence, a failure of the step that
removes the existing origin remote is swallowed: the whole remaining
sequence (remote add, add, commit, branch query, push) still runs and
no error notification is produced. -/
theorem professorSetup_swallows_remote_remove (env : Env)
    (w name o1 o2 o3 o5 o6 o7 o8 o9 : String) (e : ExecError)
    (hw : env.workspaceFolder = some w) (hn : name ≠ "")
    (h1 : env.shell "git config --global user.name \"Afonso Miguel\"" = .success o1)
    (h2 : env.shell "git config --global user.email \"afonso.miguel@pucpr.br\"" = .success o2)
    (h3 : env.shell "git init" = .success o3)
    (hrm : env.shell "git remote remove origin" = .failure e)
    (h5 : env.shell ("git remote add origin " ++ ("https://github.com/afmiguel/" ++ name ++ ".git")) = .success o5)
    (h6 : env.shell "git add ." = .success o6)
    (h7 : env.shell "git commit --allow-empty -m \"Initial commit from Class Sync\"" = .success o7)
    (h8 : env.shell "git branch --show-current" = .success o8)
    (h9 : env.shell ("git push -u origin " ++ jsTrim o8) = .success o9) :
    execCmds (professorSetup env (some name)) = setupCmds env name ∧
    hasError (professorSetup env (some name)) = false := by
  have hb : branchOf env = jsTrim o8 := by simp [branchOf, h8]
  simp only [professorSetup, if_neg hn, runCommand_ok env _ _ w o1 hw h1,
    runCommand_ok env _ _ w o2 hw h2, runCommand_ok env _ _ w o3 hw h3,
    runCommand_err env _ _ w e hw hrm, runCommand_ok env _ _ w o5 hw h5,
    runCommand_ok env _ _ w o6 hw h6, runCommand_ok env _ _ w o7 hw h7,
    runCommand_ok env _ _ w o8 hw h8, runCommand_ok env _ _ w o9 hw h9]
  exact ⟨by simp [execCmds, setupCmds, hb], by simp [hasError]⟩

/-- C6 witness: in envW1 the remote removal fails and the setup
sequence nevertheless executes all nine commands without error. -/
theorem professorSetup_swallows_remote_remove_w :
    execCmds (professorSetup envW1 (some "class-repo")) = setupCmds envW1 "class-repo" ∧
    hasError (professorSetup envW1 (some "class-repo")) = false :=
  professorSetup_swallows_remote_remove envW1 "/home/student/proj" "class-repo"
    "" "" "" "" "" "" "main\n" ""
    ⟨2, "error: No such remote: origin", "Command failed: git remote remove origin"⟩
    rfl (by decide) (by decide) (by decide) (by decide) (by decide) (by decide)
    (by decide) (by decide) (by decide) (by decide)

/-- C4 counterexample: the claim that every rejecting step surfaces an
error notification and stops the sequence fails at the remote-removal
step of professor setup: in envW1 that step rejects, yet a later step
(the remote add) still runs and no error notification appears. -/
theorem workflow_error_handling_cex :
    envW1.shell "git remote remove origin"
      = .failure ⟨2, "error: No such remote: origin", "Command failed: git remote remove origin"⟩ ∧
    "git remote remove origin" ∈ execCmds (professorSetup envW1 (some "class-repo")) ∧
    ("git remote add origin " ++ ("https://github.com/afmiguel/" ++ "class-repo" ++ ".git"))
      ∈ execCmds (professorSetup envW1 (some "class-repo")) ∧
    hasError (professorSetup envW1 (some "class-repo")) = false := by
  decide

/-- C4 (amended): for every workflow, a step whose shell execution
failed is never followed by another executed command - except the
swallowed remote-removal step of professor setup, after which the
sequence continues - and its failure is surfaced as an error
notification, which is always the last event of the trace (so nothing
at all runs after it, including after the workspace-precondition
rejection); the executed commands always form an ordered prefix of the
workflow's nominal linear sequence (no rollback, no retry). -/
theorem workflows_fail_fast (env : Env) (rn rs c : Option String) :
    (errorStops (professorSetup env rn) = true ∧
      noExecAfterFailure env ["git remote remove origin"] (professorSetup env rn) ∧
      failureSurfaced env (professorSetup env rn) ["git remote remove origin"] ∧
      ∃ n, execCmds (professorSetup env rn) = (setupCmds env (rn.getD "")).take n) ∧
    (errorStops (professorSync env) = true ∧
      noExecAfterFailure env [] (professorSync env) ∧
      failureSurfaced env (professorSync env) [] ∧
      ∃ n, execCmds (professorSync env) = syncCmds.take n) ∧
    (errorStops (studentSetup env rs) = true ∧
      noExecAfterFailure env [] (studentSetup env rs) ∧
      failureSurfaced env (studentSetup env rs) [] ∧
      ∃ n, execCmds (studentSetup env rs) = (cloneCmds (rs.getD "")).take n) ∧
    (errorStops (studentResync env c) = true ∧
      noExecAfterFailure env [] (studentResync env c) ∧
      failureSurfaced env (studentResync env c) [] ∧
      ∃ n, execCmds (studentResync env c) = (resyncCmds env).take n) :=
  ⟨⟨(professorSetup_props env rn).2.1, professorSetup_noExec env rn,
      (professorSetup_props env rn).2.2, (professorSetup_props env rn).1⟩,
   ⟨(professorSync_props env).2.1, professorSync_noExec env,
      (professorSync_props env).2.2, (professorSync_props env).1⟩,
   ⟨(studentSetup_props env rs).2.1, studentSetup_noExec env rs,
      (studentSetup_props env rs).2.2, (studentSetup_props env rs).1⟩,
   ⟨(studentResync_props env c).2.1, studentResync_noExec env c,
      (studentResync_props env c).2.2, (studentResync_props env c).1⟩⟩

/-- C4 (amended) witness: in the environment whose clone command
fails, the student setup trace ends at its error notification. -/
theorem workflows_fail_fast_w :
    errorStops (studentSetup envCloneFail (some "aula1")) = true :=
  (workflows_fail_fast envCloneFail none (some "aula1") none).2.2.1.1

/-- C8: for an accepted repository name, every command the student
setup executes is the clone of exactly the templated URL, the stored
workspace-state value is exactly that URL, and the professor setup
executes a prefix of its nominal sequence whose remote-add entry
carries exactly that URL. -/
theorem repoUrl_template (env : Env) (name : String) (hn : name ≠ "") :
    (∀ cmd ∈ execCmds (studentSetup env (some name)),
        cmd = "git clone " ++ specRepoUrl name ++ " .") ∧
    (∀ k v, Event.stateUpdate k v ∈ studentSetup env (some name) →
        k = "repoUrl" ∧ v = specRepoUrl name) ∧
    (∃ n, execCmds (professorSetup env (some name)) = (setupCmds env name).take n) ∧
    (setupCmds env name)[4]? = some ("git remote add origin " ++ specRepoUrl name) := by
  refine ⟨?_, ?_, ?_, ?_⟩
  · intro cmd hmem
    obtain ⟨n, he⟩ := (studentSetup_props env (some name)).1
    simp only [Option.getD_some] at he
    rw [he] at hmem
    have hsub := List.take_subset n (cloneCmds name) hmem
    simpa [cloneCmds, specRepoUrl] using hsub
  · intro k v hm
    cases hwc : env.workspaceFolder with
    | none =>
      simp only [studentSetup, if_neg hn, runCommand_none env _ _ hwc] at hm
      simp at hm
    | some w =>
      cases hcl : env.shell ("git clone " ++ ("https://github.com/afmiguel/" ++ name ++ ".git") ++ " .") with
      | failure e =>
        simp only [studentSetup, if_neg hn, runCommand_err env _ _ w e hwc hcl] at hm
        simp at hm
      | success out =>
        simp only [studentSetup, if_neg hn, runCommand_ok env _ _ w out hwc hcl] at hm
        simp [specRepoUrl] at hm ⊢
        exact hm
  · obtain ⟨n, he⟩ := (professorSetup_props env (some name)).1
    simp only [Option.getD_some] at he
    exact ⟨n, he⟩
  · rfl

/-- C8 witness: at a concrete name the remote-add entry of the nominal
setup sequence carries exactly the templated URL. -/
theorem repoUrl_template_w :
    (setupCmds envW1 "aula1")[4]? = some ("git remote add origin " ++ specRepoUrl "aula1") :=
  (repoUrl_template envW1 "aula1" (by decide)).2.2.2

/-- C9: the workspace-state entry recording the cloned remote URL is
written only when the clone command has succeeded - a cancelled or
empty prompt and a failed or unexecuted clone leave the state
untouched - and on success the update happens right after the clone
command, before the notification and the reload. -/
theorem studentSetup_update_after_clone (env : Env) (rn : Option String) :
    (hasUpdate (studentSetup env rn) = true →
      ∃ name w out, rn = some name ∧ name ≠ "" ∧ env.workspaceFolder = some w ∧
        env.shell ("git clone " ++ ("https://github.com/afmiguel/" ++ name ++ ".git") ++ " .")
          = .success out) ∧
    (∀ name w out, rn = some name → name ≠ "" → env.workspaceFolder = some w →
      env.shell ("git clone " ++ ("https://github.com/afmiguel/" ++ name ++ ".git") ++ " .")
        = .success out →
      studentSetup env rn =
        [.execCmd ("git clone " ++ ("https://github.com/afmiguel/" ++ name ++ ".git") ++ " ."),
         .stateUpdate "repoUrl" ("https://github.com/afmiguel/" ++ name ++ ".git"),
         .info "Professor\x27s project cloned successfully! The window will now reload.",
         .reloadWindow]) := by
  constructor
  · intro hu
    cases rn with
    | none => simp [studentSetup, hasUpdate] at hu
    | some name =>
      by_cases hn : name = ""
      · subst hn
        simp [studentSetup, hasUpdate] at hu
      · cases hwc : env.workspaceFolder with
        | none =>
          simp only [studentSetup, if_neg hn, runCommand_none env _ _ hwc] at hu
          simp [hasUpdate] at hu
        | some w =>
          cases hcl : env.shell ("git clone " ++ ("https://github.com/afmiguel/" ++ name ++ ".git") ++ " .") with
          | failure e =>
            simp only [studentSetup, if_neg hn, runCommand_err env _ _ w e hwc hcl] at hu
            simp [hasUpdate] at hu
          | success out => exact ⟨name, w, out, rfl, hn, rfl, hcl⟩
  · intro name w out hrn hn hwc hcl
    subst hrn
    simp only [studentSetup, if_neg hn, runCommand_ok env _ _ w out hwc hcl]
    simp

/-- C9 witness: in envW1 the clone of aula1 succeeds and the state
update is recorded right after the clone command. -/
theorem studentSetup_update_after_clone_w :
    studentSetup envW1 (some "aula1") =
      [.execCmd ("git clone " ++ ("https://github.com/afmiguel/" ++ "aula1" ++ ".git") ++ " ."),
       .stateUpdate "repoUrl" ("https://github.com/afmiguel/" ++ "aula1" ++ ".git"),
       .info "Professor\x27s project cloned successfully! The window will now reload.",
       .reloadWindow] :=
  (studentSetup_update_after_clone envW1 (some "aula1")).2 "aula1" "/home/student/proj" ""
    rfl (by decide) rfl (by decide)

/-- C10: a cancelled repository-name prompt or an empty input makes
the student setup command return immediately: its trace is empty, so
no shell command runs, no state is written and no notification is
shown. -/
theorem studentSetup_empty_input_noop (env : Env) :
    studentSetup env none = [] ∧ studentSetup env (some "") = [] :=
  ⟨by simp [studentSetup], by simp [studentSetup]⟩
